import Mathlib

/-!
# Verification of `message_screener.py`

A shallow embedding of the message-screening evaluation harness in
`src/message_screener.py`, together with theorems settling the spec claims.

Modelling conventions:

* Asynchronous Python functions become pure Lean functions.  The cooperative
  `asyncio` scheduler runs each task body atomically between `await` points;
  the only `await` inside `process_test_case` is the screener call, so the
  aggregate state after `asyncio.gather` equals a sequential fold of the
  per-task update over the tasks in *completion order*.  Completion order is
  nondeterministic, so theorems quantify over an arbitrary `order` list,
  a permutation of the loaded corpus.
* A raw corpus record (a JSON object) may lack the `"message_text"` or
  `"is_request"` key; this is modelled by `Record` with `Option` fields.
  Python subscript access `d[k]` on a missing key raises `KeyError`,
  modelled by `Except` with `PyError.keyError`.
* The remote round trip inside `llm_filter` (lines 234-242: the OpenAI call,
  `tool_calls[0]` access and `json.loads` of the arguments) is the external
  environment; it is modelled by a parameter `remote : String → RemoteOutcome`
  where `RemoteOutcome.failure` covers any exception raised in the `try`
  block (transport, authentication, or parsing) and `RemoteOutcome.success`
  carries the parsed argument object, whose two fields may each be absent
  (`dict.get` with a default, lines 243-244, becomes `Option.getD`).
* Python `score / total_cases` on `total_cases = 0` raises an uncaught
  `ZeroDivisionError`, modelled by `PyError.zeroDivisionError`; otherwise
  true division produces a rational number, modelled by `ℚ`.
-/

namespace MessageScreener

/-- A raw corpus record as produced by `json.load` (lines 31-33): a JSON
object in which either expected key may be missing. -/
structure Record where
  message_text : Option String
  is_request : Option Bool
deriving DecidableEq, Repr

/-- A well-formed test case: both fields present (docstring of
`process_test_case`, lines 61-63). -/
structure TestCase where
  message_text : String
  is_request : Bool
deriving DecidableEq, Repr

/-- An entry of `failed_cases` (lines 80-85). -/
structure FailedCase where
  message : String
  expected : Bool
  got : Bool
  reason : String
deriving DecidableEq, Repr

/-- The mutable closure state of `evaluate` (lines 50-56): `score`,
`progress`, `failed_cases`, `failed_case_indices`, `false_negatives`,
`false_positives`. -/
structure EvalState where
  score : Nat
  progress : Nat
  failed_cases : List FailedCase
  failed_case_indices : List Nat
  false_negatives : Nat
  false_positives : Nat
deriving DecidableEq, Repr

/-- The initial closure state of `evaluate` (lines 50-56). -/
def initState : EvalState :=
  { score := 0, progress := 0, failed_cases := [], failed_case_indices := [],
    false_negatives := 0, false_positives := 0 }

/-- Python exceptions that the embedded code can raise:
`KeyError` from subscripting a dict with a missing key (lines 69-70) and
`ZeroDivisionError` from `score / total_cases` with zero cases (line 104). -/
inductive PyError where
  | keyError
  | zeroDivisionError
deriving DecidableEq, Repr

/-- Python dict subscript `d[k]`: the value if the key is present, otherwise
`KeyError`. -/
def dictGet {α : Type} (v : Option α) : Except PyError α :=
  match v with
  | some x => .ok x
  | none => .error .keyError

/-- The state update performed by the body of `process_test_case` after the
screener result has arrived (lines 72-89): on a mismatch, bump the matching
error counter (lines 73-76), append the failure outcome (lines 80-85) and the
current `progress` as the completion index (line 86); on a match bump `score`
(line 88); finally bump `progress` (line 89).  `print` calls are pure
observations and are not modelled. -/
def record_outcome (tc : TestCase) (result : Bool) (response_message : String)
    (s : EvalState) : EvalState :=
  if result ≠ tc.is_request then
    let s1 :=
      if tc.is_request then { s with false_negatives := s.false_negatives + 1 }
      else { s with false_positives := s.false_positives + 1 }
    { s1 with
        failed_cases := s1.failed_cases ++
          [{ message := tc.message_text, expected := tc.is_request,
             got := result, reason := response_message }],
        failed_case_indices := s1.failed_case_indices ++ [s1.progress],
        progress := s1.progress + 1 }
  else
    { s with score := s.score + 1, progress := s.progress + 1 }

/-- One task of `evaluate` (lines 58-90): fetch the two record fields by
subscript (lines 69-70, `KeyError` if absent), await the screener (line 71),
then update the closure state (lines 72-89). -/
def process_test_case (message_screener : String → Bool × String)
    (test_case : Record) (s : EvalState) : Except PyError EvalState :=
  (dictGet test_case.message_text).bind fun message_text =>
    (dictGet test_case.is_request).bind fun is_request =>
      let res := message_screener message_text
      .ok (record_outcome ⟨message_text, is_request⟩ res.1 res.2 s)

/-- The aggregate effect of all tasks once `asyncio.gather` (line 98) has
returned: the per-task updates applied in completion order `order`. -/
def runAll (message_screener : String → Bool × String) (order : List Record)
    (s : EvalState) : Except PyError EvalState :=
  order.foldlM (fun st tc => process_test_case message_screener tc st) s

/-- The corpus load step (lines 31-33): `json.load` parses the file and
performs no per-record schema validation, so a list of syntactically valid
records is returned as-is. -/
def loadCorpus (records : List Record) : Except PyError (List Record) :=
  .ok records

/-- `evaluate` (lines 36-104): `total_cases = len(test_cases)` (line 51),
run every task and join (lines 92-98), then return `score / total_cases`
(line 104) — an uncaught `ZeroDivisionError` when the corpus is empty.
`order` is the completion order of the tasks, a permutation of
`test_cases`. -/
def evaluate (message_screener : String → Bool × String)
    (test_cases : List Record) (order : List Record) : Except PyError ℚ := do
  let total_cases := test_cases.length
  let final ← runAll message_screener order initState
  if total_cases = 0 then .error .zeroDivisionError
  else pure ((final.score : ℚ) / (total_cases : ℚ))

/-- The parsed `arguments` object of the tool call (line 242): a JSON object
whose `is_valid_query` and `why` keys may each be absent. -/
structure ToolArguments where
  is_valid_query : Option Bool
  why : Option String
deriving DecidableEq, Repr

/-- The outcome of the remote round trip inside `llm_filter`'s `try` block
(lines 234-242): `failure` when any exception is raised (transport,
authentication, or response parsing — Python catches them uniformly at
line 247), `success` with the parsed tool-call arguments otherwise. -/
inductive RemoteOutcome where
  | failure
  | success (arguments : ToolArguments)
deriving DecidableEq, Repr

/-- `llm_filter` (lines 141-249), parameterised by the behaviour `remote` of
the external service: on success, `arguments.get('is_valid_query', False)`
and `arguments.get('why', "")` (lines 243-245); on any exception, the
fail-closed result of the `except` handler (lines 247-249). -/
def llm_filter (remote : String → RemoteOutcome) (message_text : String) :
    Bool × String :=
  match remote message_text with
  | .failure => (false, "Error validating search, please try again.")
  | .success arguments =>
      let is_valid_query := arguments.is_valid_query.getD false
      let why := arguments.why.getD ""
      (is_valid_query, why)

/-- The filter loop of `validate_query` (lines 268-272), abstracted over the
`filters` list (line 263): run each filter in list order; on the first
`allowed = false` return `(False, response_message)` (line 271); if the loop
finishes, return `(True, None)` (line 272).  The second component is
`Option String` because Python returns `None` in the allowed branch. -/
def runFilters (filters : List (String → Bool × String))
    (message_text : String) : Bool × Option String :=
  match filters with
  | [] => (true, none)
  | filter_func :: rest =>
      let res := filter_func message_text
      if res.1 then runFilters rest message_text
      else (false, some res.2)

/-- `validate_query` (lines 252-272): the filter loop over the active filter
list `[llm_filter]` (lines 263-267; the keyword and regex filters are
commented out in the source). -/
def validate_query (remote : String → RemoteOutcome) (message_text : String) :
    Bool × Option String :=
  runFilters [llm_filter remote] message_text

/-! ### Concrete fixtures

Concrete corpora, screeners, filters and remote behaviours used to witness
the theorems below on explicit inputs.  `corpus2` is the two-case corpus of
spec scenarios A and B. -/

/-- The two-case corpus of the spec's scenarios A and B. -/
def corpus2 : List Record :=
  [{ message_text := some "looking for software engineers in Austin", is_request := some true },
   { message_text := some "hello", is_request := some false }]

/-- A stub screener that allows every message. -/
def stubAllow : String → Bool × String := fun _ => (true, "")

/-- A stub screener that rejects every message. -/
def stubDeny : String → Bool × String := fun _ => (false, "rejected")

/-- The closure state after running `stubAllow` over `corpus2`. -/
def wAllowFinal : EvalState :=
  { score := 1, progress := 2,
    failed_cases := [{ message := "hello", expected := false, got := true, reason := "" }],
    failed_case_indices := [1], false_negatives := 0, false_positives := 1 }

/-- The closure state after running `stubDeny` over `corpus2`. -/
def wDenyFinal : EvalState :=
  { score := 1, progress := 2,
    failed_cases := [{ message := "looking for software engineers in Austin",
                       expected := true, got := false, reason := "rejected" }],
    failed_case_indices := [0], false_negatives := 1, false_positives := 0 }

/-- A stub filter that allows every message. -/
def passFilter : String → Bool × String := fun _ => (true, "")

/-- A stub filter that rejects every message with reason `"not a search"`. -/
def denyFilter : String → Bool × String := fun _ => (false, "not a search")

/-- A stub filter placed after `denyFilter` in chains. -/
def laterFilter : String → Bool × String := fun _ => (true, "later")

/-- A remote service that always succeeds with a positive decision. -/
def remoteAllOk : String → RemoteOutcome := fun _ => .success ⟨some true, some "fine"⟩

/-- A remote service whose round trip always raises. -/
def remoteDown : String → RemoteOutcome := fun _ => .failure

/-- A remote service that succeeds but returns an argument object with both
keys absent. -/
def remoteBare : String → RemoteOutcome := fun _ => .success ⟨none, none⟩

/-- A corpus record missing its `"message_text"` key. -/
def malformedRecord : Record := { message_text := none, is_request := some true }

/-! ### Helper lemmas -/

/-- Unfolding: `runAll` on the empty completion order. -/
theorem runAll_nil (ms : String → Bool × String) (s : EvalState) :
    runAll ms [] s = .ok s := rfl

/-- Unfolding: `runAll` on a cons performs the first task, then the rest. -/
theorem runAll_cons (ms : String → Bool × String) (tc : Record)
    (rest : List Record) (s : EvalState) :
    runAll ms (tc :: rest) s =
      (process_test_case ms tc s).bind (fun s1 => runAll ms rest s1) := rfl

/-- A task that completes normally ran on a record with both fields present
and performed the `record_outcome` update. -/
theorem process_test_case_ok (ms : String → Bool × String) (tc : Record)
    (s s1 : EvalState) (h : process_test_case ms tc s = .ok s1) :
    ∃ m e, tc.message_text = some m ∧ tc.is_request = some e ∧
      s1 = record_outcome ⟨m, e⟩ (ms m).1 (ms m).2 s := by
  obtain ⟨mt, ir⟩ := tc
  cases mt with
  | none => simp [process_test_case, dictGet, Except.bind] at h
  | some m =>
    cases ir with
    | none => simp [process_test_case, dictGet, Except.bind] at h
    | some e =>
      refine ⟨m, e, rfl, rfl, ?_⟩
      simp [process_test_case, dictGet, Except.bind] at h
      exact h.symm

/-- Per-step accounting of `record_outcome`: progress and the three counters
each grow as the spec describes, and the two failure lists grow together. -/
theorem record_outcome_delta (tc : TestCase) (result : Bool) (msg : String)
    (s : EvalState) :
    (record_outcome tc result msg s).progress = s.progress + 1 ∧
    (record_outcome tc result msg s).score
        + (record_outcome tc result msg s).false_positives
        + (record_outcome tc result msg s).false_negatives
      = s.score + s.false_positives + s.false_negatives + 1 ∧
    (record_outcome tc result msg s).failed_cases.length
        + s.false_positives + s.false_negatives
      = s.failed_cases.length
        + (record_outcome tc result msg s).false_positives
        + (record_outcome tc result msg s).false_negatives ∧
    (record_outcome tc result msg s).failed_case_indices.length
        + s.failed_cases.length
      = s.failed_case_indices.length
        + (record_outcome tc result msg s).failed_cases.length := by
  obtain ⟨mt, ir⟩ := tc
  cases result <;> cases ir <;> simp [record_outcome] <;> omega

/-- Aggregate accounting of a completed run: the deltas of
`record_outcome_delta` summed over the completion order. -/
theorem runAll_delta (ms : String → Bool × String) :
    ∀ (order : List Record) (s final : EvalState),
      runAll ms order s = .ok final →
      final.progress = s.progress + order.length ∧
      final.score + final.false_positives + final.false_negatives + s.progress
        = s.score + s.false_positives + s.false_negatives + final.progress ∧
      final.failed_cases.length + s.false_positives + s.false_negatives
        = s.failed_cases.length + final.false_positives + final.false_negatives ∧
      final.failed_case_indices.length + s.failed_cases.length
        = s.failed_case_indices.length + final.failed_cases.length := by
  intro order
  induction order with
  | nil =>
    intro s final h
    rw [runAll_nil] at h
    cases h
    simp
  | cons tc rest ih =>
    intro s final h
    rw [runAll_cons] at h
    cases hp : process_test_case ms tc s with
    | error e => rw [hp] at h; simp [Except.bind] at h
    | ok s1 =>
      rw [hp] at h
      simp only [Except.bind] at h
      have hrest := ih s1 final h
      obtain ⟨m, e, hm, he, rfl⟩ := process_test_case_ok ms tc s s1 hp
      have hdelta := record_outcome_delta ⟨m, e⟩ (ms m).1 (ms m).2 s
      obtain ⟨d1, d2, d3, d4⟩ := hdelta
      obtain ⟨r1, r2, r3, r4⟩ := hrest
      have hlen : (tc :: rest).length = rest.length + 1 := by simp
      refine ⟨?_, ?_, ?_, ?_⟩ <;> omega

/-- Filters that all allow the message are passed through transparently by
the chain loop. -/
theorem runFilters_all_true (msg : String) :
    ∀ (pre rest : List (String → Bool × String)),
      (∀ f ∈ pre, (f msg).1 = true) →
      runFilters (pre ++ rest) msg = runFilters rest msg := by
  intro pre
  induction pre with
  | nil => intro rest _; rfl
  | cons f fs ih =>
    intro rest h
    have hf : (f msg).1 = true := h f (List.mem_cons_self f fs)
    have step : runFilters ((f :: fs) ++ rest) msg = runFilters (fs ++ rest) msg := by
      show (if (f msg).1 then runFilters (fs ++ rest) msg
            else (false, some (f msg).2)) = runFilters (fs ++ rest) msg
      rw [hf]
      simp
    rw [step]
    exact ih rest (fun g hg => h g (List.mem_cons_of_mem f hg))

/-! ### Claims -/

/-- C1: for every corpus of N test cases and every screener, after
`evaluate`'s join barrier (`asyncio.gather`) returns — i.e. for every
completion order `order`, a permutation of the corpus, whose fold completes
normally — exactly N outcomes have been recorded (`progress = N`) and
`score + false_positives + false_negatives = N`. -/
theorem C1_outcome_count_invariant (ms : String → Bool × String)
    (test_cases order : List Record) (final : EvalState)
    (hperm : order.Perm test_cases)
    (h : runAll ms order initState = .ok final) :
    final.progress = test_cases.length ∧
    final.score + final.false_positives + final.false_negatives
      = test_cases.length := by
  obtain ⟨h1, h2, _, _⟩ := runAll_delta ms order initState final h
  have hl := hperm.length_eq
  simp [initState] at h1 h2
  omega

/-- C1 witness: the invariant instantiated on the concrete two-case corpus
`corpus2` with the all-allowing stub screener. -/
theorem C1_witness :
    wAllowFinal.progress = corpus2.length ∧
    wAllowFinal.score + wAllowFinal.false_positives + wAllowFinal.false_negatives
      = corpus2.length :=
  C1_outcome_count_invariant stubAllow corpus2 corpus2 wAllowFinal
    (List.Perm.refl corpus2) rfl

/-- C2: the filter chain evaluates filters in list order; if every filter
before position k allows the message and the filter at position k rejects
it, the chain returns `(false, some reason_k)` with `reason_k` the rejecting
filter's reason, and the result is the same whatever filters occupy the
positions after k — the later filters are never invoked. -/
theorem C2_short_circuit (pre post : List (String → Bool × String))
    (fk : String → Bool × String) (msg : String)
    (hpre : ∀ f ∈ pre, (f msg).1 = true)
    (hk : (fk msg).1 = false) :
    runFilters (pre ++ fk :: post) msg = (false, some (fk msg).2) ∧
    ∀ post2 : List (String → Bool × String),
      runFilters (pre ++ fk :: post2) msg = (false, some (fk msg).2) := by
  have key : ∀ post2 : List (String → Bool × String),
      runFilters (pre ++ fk :: post2) msg = (false, some (fk msg).2) := by
    intro post2
    rw [runFilters_all_true msg pre (fk :: post2) hpre]
    show (if (fk msg).1 then runFilters post2 msg
          else (false, some (fk msg).2)) = (false, some (fk msg).2)
    rw [hk]
    simp
  exact ⟨key post, key⟩

/-- C2 witness: a chain of a passing filter, a rejecting filter and a later
filter short-circuits at the rejecting one. -/
theorem C2_witness :
    runFilters [passFilter, denyFilter, laterFilter] "hello"
      = (false, some "not a search") :=
  (C2_short_circuit [passFilter] [laterFilter] denyFilter "hello"
    (by intro f hf; simp at hf; subst hf; rfl) rfl).1

/-- C3 counterexample: with the active filter allowing the message,
`validate_query` returns `(True, None)` (line 272 of the source), not
`(true, "")` as the claim states — the allowed result carries Python `None`,
not an empty string. -/
theorem C3_counterexample :
    validate_query remoteAllOk "hello" = (true, none) ∧
    validate_query remoteAllOk "hello" ≠ (true, some "") := by
  constructor
  · rfl
  · intro hcontra
    have : ((true, none) : Bool × Option String) = (true, some "") := by
      rw [← hcontra]; rfl
    simp at this

/-- C3 amended: for every message, if every filter in the chain returns
`allowed = true`, or the filter list is empty, the chain returns
`(true, none)` — the allowed result carries `None` (no reason), not an
empty string. -/
theorem C3_amended_all_pass (filters : List (String → Bool × String))
    (msg : String) (h : ∀ f ∈ filters, (f msg).1 = true) :
    runFilters filters msg = (true, none) := by
  have := runFilters_all_true msg filters [] h
  rw [List.append_nil] at this
  rw [this]
  rfl

/-- C3 witness: the amended statement on the empty filter list. -/
theorem C3_witness : runFilters [] "hello" = (true, none) :=
  C3_amended_all_pass [] "hello" (by intro f hf; simp at hf)

/-- C4: for every message, whenever the remote round trip inside
`llm_filter` fails in any way (any exception in the `try` block: transport,
authentication, parsing), `llm_filter` returns `(false, s)` with `s` the
non-empty retry-suggesting string of line 249; being a total function of
the remote outcome, it never propagates the failure to its caller. -/
theorem C4_fail_closed (remote : String → RemoteOutcome) (msg : String)
    (h : remote msg = .failure) :
    llm_filter remote msg
      = (false, "Error validating search, please try again.") ∧
    (llm_filter remote msg).2 ≠ "" := by
  have hres : llm_filter remote msg
      = (false, "Error validating search, please try again.") := by
    rw [llm_filter, h]
  refine ⟨hres, ?_⟩
  rw [hres]
  decide

/-- C4 witness: the fail-closed result on a remote service that always
raises. -/
theorem C4_witness :
    llm_filter remoteDown "hello"
      = (false, "Error validating search, please try again.") ∧
    (llm_filter remoteDown "hello").2 ≠ "" :=
  C4_fail_closed remoteDown "hello" rfl

/-- C5: for every corpus of N > 0 cases and every screener, `evaluate`
returns `score / N` for the final aggregate state, and this value lies in
`[0, 1]`. -/
theorem C5_score_bounds (ms : String → Bool × String)
    (test_cases order : List Record) (final : EvalState)
    (hperm : order.Perm test_cases)
    (hne : test_cases ≠ [])
    (h : runAll ms order initState = .ok final) :
    evaluate ms test_cases order
      = .ok ((final.score : ℚ) / (test_cases.length : ℚ)) ∧
    0 ≤ ((final.score : ℚ) / (test_cases.length : ℚ)) ∧
    ((final.score : ℚ) / (test_cases.length : ℚ)) ≤ 1 := by
  have hlen : test_cases.length ≠ 0 := by
    intro hc
    exact hne (List.length_eq_zero.mp hc)
  have hscore : final.score ≤ test_cases.length := by
    obtain ⟨h1, h2, _, _⟩ := runAll_delta ms order initState final h
    have hl := hperm.length_eq
    simp [initState] at h1 h2
    omega
  have hpos : (0 : ℚ) < (test_cases.length : ℚ) := by
    exact_mod_cast Nat.pos_of_ne_zero hlen
  refine ⟨?_, ?_, ?_⟩
  · rw [evaluate, h]
    simp [Except.bind, hlen]
  · exact div_nonneg (by positivity) hpos.le
  · rw [div_le_one hpos]
    exact_mod_cast hscore

/-- C5 witness: the score bounds instantiated on `corpus2` with the
all-allowing stub screener, where the returned score is 1/2. -/
theorem C5_witness :
    evaluate stubAllow corpus2 corpus2
      = .ok ((wAllowFinal.score : ℚ) / (corpus2.length : ℚ)) ∧
    0 ≤ ((wAllowFinal.score : ℚ) / (corpus2.length : ℚ)) ∧
    ((wAllowFinal.score : ℚ) / (corpus2.length : ℚ)) ≤ 1 :=
  C5_score_bounds stubAllow corpus2 corpus2 wAllowFinal
    (List.Perm.refl corpus2) (by decide) rfl

/-- C6 counterexample: on the empty corpus the run itself completes (no
explicit rejection is ever performed) and `evaluate` then fails with the
`ZeroDivisionError` raised by `score / total_cases` at line 104 — exactly
the unhandled division failure the claim says is avoided. -/
theorem C6_counterexample :
    runAll stubAllow [] initState = .ok initState ∧
    evaluate stubAllow [] [] = .error PyError.zeroDivisionError :=
  ⟨rfl, rfl⟩

/-- C6 amended: when the corpus is empty (`total == 0`), `evaluate` is not
explicitly rejected up front; it runs to the final division and fails there
with an uncaught `ZeroDivisionError`, for every screener. -/
theorem C6_amended_zero_division (ms : String → Bool × String) :
    evaluate ms [] [] = .error PyError.zeroDivisionError := rfl

/-- C7 counterexample: a record missing its `"message_text"` key passes the
load step untouched (`json.load` performs no schema validation, lines
31-33), and the failure surfaces only during evaluation, as a per-case
`KeyError` inside the task processing that record. -/
theorem C7_counterexample :
    loadCorpus [malformedRecord] = .ok [malformedRecord] ∧
    runAll stubAllow [malformedRecord] initState = .error PyError.keyError :=
  ⟨rfl, rfl⟩

/-- C7 amended: a corpus record missing its message string or its boolean
expectation is not rejected at load time; it is returned unchanged by the
load step, and the failure occurs per-case during evaluation, when
`process_test_case` subscripts the missing key and raises `KeyError`. -/
theorem C7_amended_per_case_failure (ms : String → Bool × String)
    (r : Record) (s : EvalState)
    (h : r.message_text = none ∨ r.is_request = none) :
    loadCorpus [r] = .ok [r] ∧
    process_test_case ms r s = .error PyError.keyError := by
  refine ⟨rfl, ?_⟩
  obtain ⟨mt, ir⟩ := r
  rcases h with h | h
  · simp only at h
    subst h
    rfl
  · simp only at h
    subst h
    cases mt with
    | none => rfl
    | some m => rfl

/-- C7 witness: the amended statement on the concrete record missing its
`"message_text"` key. -/
theorem C7_witness :
    loadCorpus [malformedRecord] = .ok [malformedRecord] ∧
    process_test_case stubAllow malformedRecord initState
      = .error PyError.keyError :=
  C7_amended_per_case_failure stubAllow malformedRecord initState (Or.inl rfl)

/-- C8: for every completed task on a well-formed record, if the screener's
result equals the expected label only `score` is incremented; otherwise
exactly one of `false_negatives` (expected true) or `false_positives`
(expected false) is incremented — never both, never neither — the mismatch
outcome is appended to `failed_cases` and the completion index (`progress`
before its increment) is appended to `failed_case_indices`. -/
theorem C8_outcome_recording (ms : String → Bool × String)
    (m : String) (e : Bool) (s : EvalState) :
    process_test_case ms { message_text := some m, is_request := some e } s =
      .ok (if (ms m).1 = e then
            { s with score := s.score + 1, progress := s.progress + 1 }
          else
            { s with
                false_negatives :=
                  s.false_negatives + (if e then 1 else 0),
                false_positives :=
                  s.false_positives + (if e then 0 else 1),
                failed_cases := s.failed_cases ++
                  [{ message := m, expected := e, got := (ms m).1,
                     reason := (ms m).2 }],
                failed_case_indices := s.failed_case_indices ++ [s.progress],
                progress := s.progress + 1 }) := by
  show Except.ok (record_outcome ⟨m, e⟩ (ms m).1 (ms m).2 s) = _
  cases hr : (ms m).1 <;> cases e <;>
    simp [record_outcome, hr]

/-- C9: when the remote service responds without raising but the parsed
tool-call arguments omit `is_valid_query`, `llm_filter` defaults the
decision to `false` (`dict.get` with default `False`, line 243); when `why`
is omitted the reason defaults to `""` (line 244) — an allowed result with
a missing boolean is impossible. -/
theorem C9_missing_fields_default (remote : String → RemoteOutcome)
    (msg : String) (args : ToolArguments)
    (h : remote msg = .success args) :
    (args.is_valid_query = none → (llm_filter remote msg).1 = false) ∧
    (args.why = none → (llm_filter remote msg).2 = "") := by
  constructor <;> intro h2 <;> rw [llm_filter, h] <;> simp [h2]

/-- C9 witness: the defaults on a remote service returning an argument
object with both keys absent. -/
theorem C9_witness :
    (llm_filter remoteBare "hello").1 = false ∧
    (llm_filter remoteBare "hello").2 = "" :=
  ⟨(C9_missing_fields_default remoteBare "hello" ⟨none, none⟩ rfl).1 rfl,
   (C9_missing_fields_default remoteBare "hello" ⟨none, none⟩ rfl).2 rfl⟩

/-- C10: after every normally completing run of `evaluate`'s task fold —
and, since the completion order ranges over arbitrary lists, after every
prefix of every run, i.e. throughout the run — the failure-tracking
structures stay aligned: `failed_cases` and `failed_case_indices` have the
same length, equal to `false_positives + false_negatives`. -/
theorem C10_failure_tracking_aligned (ms : String → Bool × String)
    (order : List Record) (s : EvalState)
    (h : runAll ms order initState = .ok s) :
    s.failed_cases.length = s.failed_case_indices.length ∧
    s.failed_cases.length = s.false_positives + s.false_negatives := by
  obtain ⟨_, _, h3, h4⟩ := runAll_delta ms order initState s h
  simp [initState] at h3 h4
  omega

/-- C10 witness: the alignment on `corpus2` with the all-rejecting stub
screener, which produces one false negative. -/
theorem C10_witness :
    wDenyFinal.failed_cases.length = wDenyFinal.failed_case_indices.length ∧
    wDenyFinal.failed_cases.length
      = wDenyFinal.false_positives + wDenyFinal.false_negatives :=
  C10_failure_tracking_aligned stubDeny corpus2 wDenyFinal rfl

